import Mathlib

/-!
Verification of the system-monitor collector (`main.py`) and its Streamlit
dashboard reader (`app.py`).

Python floats are modelled as rationals (ℚ); all the literals handled by the
claims ("23.4", "1", the threshold constants) are exact decimals, so no
rounding is involved.  SQLite rows are modelled as Lean structures without the
surrogate `id` column: both tables are append-only and AUTOINCREMENT assigns
strictly increasing ids, so `ORDER BY id DESC` coincides with reverse
insertion order, which is how the read queries are embedded.
-/

/-- One row of `system_log` (and the in-memory sample tuple produced by
`get_system_info`), minus the auto-assigned `id`. -/
structure Sample where
  timestamp : String
  cpu : ℚ
  memory : ℚ
  disk : ℚ
  ping_status : String
  ping_ms : ℚ
deriving DecidableEq

/-- The alert message f-strings of `check_alerts`, kept as tagged values (the
interpolated metric value included) since float-to-text formatting is outside
the model. -/
inductive AlertMsg where
  | highCpu (v : ℚ)
  | highMemory (v : ℚ)
  | lowDisk (v : ℚ)
deriving DecidableEq

/-- The `(alert_type, value, threshold, message)` tuple accumulated in
`alerts_triggered` inside `check_alerts`. -/
structure AlertRec where
  alert_type : String
  value : ℚ
  threshold : ℚ
  message : AlertMsg
deriving DecidableEq

/-- One row of `alerts_log`, minus the auto-assigned `id`. -/
structure AlertRow where
  timestamp : String
  alert_type : String
  value : ℚ
  threshold : ℚ
  message : AlertMsg
deriving DecidableEq

/-- The two tables of `log.db`, each in insertion (id-ascending) order. -/
structure Store where
  system_log : List Sample
  alerts_log : List AlertRow
deriving DecidableEq

/-- The state `init_db` leaves a fresh database in. -/
def emptyStore : Store := ⟨[], []⟩

/-- `CPU_THRESHOLD = 80.0` (written as the integer-valued rational `80`). -/
def CPU_THRESHOLD : ℚ := 80

/-- `MEMORY_THRESHOLD = 85.0`. -/
def MEMORY_THRESHOLD : ℚ := 85

/-- `DISK_THRESHOLD = 90.0`. -/
def DISK_THRESHOLD : ℚ := 90

/-- `insert_log`: one row appended to `system_log`. -/
def insert_log (data : Sample) (st : Store) : Store :=
  { st with system_log := st.system_log ++ [data] }

/-- `insert_alert`: one row appended to `alerts_log`. -/
def insert_alert (timestamp : String) (a : AlertRec) (st : Store) : Store :=
  { st with alerts_log :=
      st.alerts_log ++ [⟨timestamp, a.alert_type, a.value, a.threshold, a.message⟩] }

/-- The `alerts_triggered` list built by `check_alerts`: one record per metric
strictly above its threshold, appended in the fixed order CPU, MEMORY, DISK. -/
def check_alerts_list (data : Sample) : List AlertRec :=
  (if data.cpu > CPU_THRESHOLD then
    [⟨"CPU", data.cpu, CPU_THRESHOLD, AlertMsg.highCpu data.cpu⟩] else []) ++
  (if data.memory > MEMORY_THRESHOLD then
    [⟨"MEMORY", data.memory, MEMORY_THRESHOLD, AlertMsg.highMemory data.memory⟩] else []) ++
  (if data.disk > DISK_THRESHOLD then
    [⟨"DISK", data.disk, DISK_THRESHOLD, AlertMsg.lowDisk data.disk⟩] else [])

/-- `check_alerts`: logs each triggered alert to the database (with the
sample's timestamp) and returns whether any alert fired. -/
def check_alerts (data : Sample) (st : Store) : Bool × Store :=
  let triggered := check_alerts_list data
  (decide (triggered.length > 0),
   triggered.foldl (fun s a => insert_alert data.timestamp a s) st)

/-- Number of metrics of a sample strictly above their thresholds. -/
def exceedCount (data : Sample) : Nat :=
  (if data.cpu > CPU_THRESHOLD then 1 else 0) +
  (if data.memory > MEMORY_THRESHOLD then 1 else 0) +
  (if data.disk > DISK_THRESHOLD then 1 else 0)

/-- Rank of an alert type in the fixed check order of `check_alerts`. -/
def typeRank : String → Nat
  | "CPU" => 0
  | "MEMORY" => 1
  | "DISK" => 2
  | _ => 3

example : check_alerts_list ⟨"t", 50, 50, 50, "UP", 10⟩ = [] := by decide

example : (check_alerts_list ⟨"t", 90, 50, 95, "UP", 10⟩).map AlertRec.alert_type
    = ["CPU", "DISK"] := by decide

/-! ### The ping probe (`ping_host` / `parse_ping_time`)

Ping output text is modelled as `List Char`.  Python's `str` methods used by
`parse_ping_time` (`lower`, `splitlines`, `split(sep)`, `split()`,
`replace("ms", "")`, `strip`, `float(...)`) are embedded below with their
Python semantics at the inputs in scope (finite decimal literals; the exotic
`float` spellings `inf`/`nan`/underscores never occur in ping output and are
mapped to a parse failure). -/

/-- `str.lower()` (ASCII, which covers ping output). -/
def lowerL (s : List Char) : List Char := s.map Char.toLower

/-- Helper for `splitlines`: accumulates the current line (reversed). -/
def splitlinesAux : List Char → List Char → List (List Char)
  | [], acc => if acc.isEmpty then [] else [acc.reverse]
  | '\r' :: '\n' :: rest, acc => acc.reverse :: splitlinesAux rest []
  | '\r' :: rest, acc => acc.reverse :: splitlinesAux rest []
  | '\n' :: rest, acc => acc.reverse :: splitlinesAux rest []
  | c :: rest, acc => splitlinesAux rest (c :: acc)

/-- `str.splitlines()` over the line boundaries occurring in ping output
(`\n`, `\r`, `\r\n`); no trailing empty line, like Python. -/
def splitlines (s : List Char) : List (List Char) := splitlinesAux s []

/-- `sep` occurs at the head of the list. -/
def startsWith : List Char → List Char → Bool
  | [], _ => true
  | _ :: _, [] => false
  | a :: as, b :: bs => a == b && startsWith as bs

/-- Python's `sep in s` substring test. -/
def containsSub (sep : List Char) : List Char → Bool
  | [] => sep.isEmpty
  | c :: t => startsWith sep (c :: t) || containsSub sep t

/-- The suffix after the first occurrence of `sep`, or `none` when `sep` does
not occur (Python: `s.split(sep)` has length 1). -/
def dropThroughSep (sep : List Char) : List Char → Option (List Char)
  | [] => if sep.isEmpty then some [] else none
  | c :: t =>
      if startsWith sep (c :: t) then some ((c :: t).drop sep.length)
      else dropThroughSep sep t

/-- The prefix up to the first occurrence of `sep` (the whole list if `sep`
does not occur).  Composed with `dropThroughSep` this is Python's
`s.split(sep)[1]`. -/
def takeUntilSep (sep : List Char) : List Char → List Char
  | [] => []
  | c :: t => if startsWith sep (c :: t) then [] else c :: takeUntilSep sep t

/-- `str.replace("ms", "")`: removes every (non-overlapping, left-to-right)
occurrence of `ms`. -/
def removeMS : List Char → List Char
  | 'm' :: 's' :: rest => removeMS rest
  | c :: rest => c :: removeMS rest
  | [] => []

/-- The whitespace class of Python's no-argument `str.split()` / `str.strip()`
(ASCII part: space, tab, newline, carriage return, vertical tab, form feed). -/
def isPySpace (c : Char) : Bool :=
  c == ' ' || c == '\t' || c == '\n' || c == '\r' ||
  c == Char.ofNat 11 || c == Char.ofNat 12

/-- `str.split()[0]`: first whitespace-delimited token, `none` when the string
is empty or all whitespace (Python raises `IndexError`, caught by the parser). -/
def firstToken (s : List Char) : Option (List Char) :=
  let t := s.dropWhile isPySpace
  if t.isEmpty then none else some (t.takeWhile (fun c => !isPySpace c))

/-- `str.strip()`. -/
def stripL (s : List Char) : List Char :=
  ((s.dropWhile isPySpace).reverse.dropWhile isPySpace).reverse

/-- Numeric value of a digit string. -/
def digitsVal (s : List Char) : Nat :=
  s.foldl (fun n c => 10 * n + (c.toNat - '0'.toNat)) 0

/-- All characters are decimal digits. -/
def isDigits (s : List Char) : Bool := s.all Char.isDigit

/-- The mantissa part of a Python float literal: digits with an optional
decimal point, at least one digit overall. -/
def parseMantissa (s : List Char) : Option ℚ :=
  let intPart := s.takeWhile (fun c => c != '.')
  let rest := s.dropWhile (fun c => c != '.')
  match rest with
  | [] =>
      if !intPart.isEmpty && isDigits intPart then some (digitsVal intPart : ℚ) else none
  | _ :: frac =>
      if isDigits intPart && isDigits frac && (!intPart.isEmpty || !frac.isEmpty) then
        some ((digitsVal intPart : ℚ) + (digitsVal frac : ℚ) / (10 : ℚ) ^ frac.length)
      else none

/-- The exponent part of a Python float literal (after `e`/`E`). -/
def parseExp (s : List Char) : Option ℤ :=
  match s with
  | '+' :: t => if !t.isEmpty && isDigits t then some (digitsVal t : ℤ) else none
  | '-' :: t => if !t.isEmpty && isDigits t then some (-(digitsVal t : ℤ)) else none
  | t => if !t.isEmpty && isDigits t then some (digitsVal t : ℤ) else none

/-- Python's `float(s)` on finite decimal literals, as an exact rational;
`none` models `ValueError`. -/
def pyFloat (s : List Char) : Option ℚ :=
  let s := stripL s
  let (sign, body) : ℚ × List Char :=
    match s with
    | '+' :: t => (1, t)
    | '-' :: t => (-1, t)
    | t => (1, t)
  let mant := body.takeWhile (fun c => !(c == 'e' || c == 'E'))
  let rest := body.dropWhile (fun c => !(c == 'e' || c == 'E'))
  match rest with
  | [] => (parseMantissa mant).map (fun q => sign * q)
  | _ :: etail =>
      match parseExp etail, parseMantissa mant with
      | some e, some q => some (sign * q * (10 : ℚ) ^ e)
      | _, _ => none

def timeEqMarker : List Char := ['t', 'i', 'm', 'e', '=']

def timeLtMarker : List Char := ['t', 'i', 'm', 'e', '<']

/-- The body of one iteration of `parse_ping_time`'s loop: lowercase the line
and, when a `time=` / `time<` marker is present, extract
`parts[1].split()[0].replace("ms", "").strip()` and convert it to a float.
`none` means the loop moves on to the next line. -/
def parseLine (line : List Char) : Option ℚ :=
  let l := lowerL line
  if containsSub timeEqMarker l || containsSub timeLtMarker l then
    if containsSub timeEqMarker l then
      match dropThroughSep timeEqMarker l with
      | some suffix =>
          match firstToken (takeUntilSep timeEqMarker suffix) with
          | some tok => pyFloat (stripL (removeMS tok))
          | none => none
      | none => none
    else
      match dropThroughSep timeLtMarker l with
      | some suffix =>
          match firstToken (takeUntilSep timeLtMarker suffix) with
          | some tok => pyFloat (stripL (removeMS tok))
          | none => none
      | none => none
  else none

/-- The loop of `parse_ping_time`: first line that yields a value wins; `-1`
when every line fails. -/
def parsePingLines : List (List Char) → ℚ
  | [] => -1
  | line :: rest =>
      match parseLine line with
      | some v => v
      | none => parsePingLines rest

/-- `parse_ping_time(output)`. -/
def parse_ping_time (output : List Char) : ℚ :=
  parsePingLines (splitlines output)

/-- `ping_host`: the subprocess call is embedded as its outcome — `Except.ok`
with the decoded output when `ping` exits 0, `Except.error` for any raised
exception (`CalledProcessError`, `OSError`, decode failure).  On success the
status is `"UP"` whatever `parse_ping_time` returns; every exception is
swallowed into `("DOWN", -1)`. -/
def ping_host (outcome : Except Unit (List Char)) : String × ℚ :=
  match outcome with
  | Except.ok output => ("UP", parse_ping_time output)
  | Except.error _ => ("DOWN", -1)

/-- Some line of the output contains a `time=` or `time<` marker
(case-insensitively) — the condition line 74 of `main.py` tests. -/
def hasTimeMarker (output : List Char) : Bool :=
  (splitlines output).any
    (fun line =>
      containsSub timeEqMarker (lowerL line) || containsSub timeLtMarker (lowerL line))

example :
    parse_ping_time "64 bytes from 8.8.8.8: icmp_seq=1 ttl=117 time=23.4 ms".data
      = 23.4 := by with_unfolding_all rfl

example : parse_ping_time "Reply from 8.8.8.8: bytes=32 time<1ms TTL=117".data = 1 := by
  with_unfolding_all rfl

example : parse_ping_time "pong".data = -1 := by decide

example : ping_host (Except.ok "pong".data) = ("UP", -1) := by decide

/-! ### Store reads (`main.py` queries and `app.py` reader)

The tables are kept in insertion order and ids are assigned by AUTOINCREMENT,
strictly increasing, so every `ORDER BY id DESC` query is embedded as
`List.reverse`. -/

/-- The rows printed by `show_last_entries`:
`SELECT * FROM system_log ORDER BY id DESC LIMIT ?`. -/
def show_last_entries_rows (limit : Nat) (st : Store) : List Sample :=
  (st.system_log.reverse).take limit

/-- The rows printed by `show_alerts_log`:
`SELECT * FROM alerts_log ORDER BY id DESC LIMIT ?`. -/
def show_alerts_log_rows (limit : Nat) (st : Store) : List AlertRow :=
  (st.alerts_log.reverse).take limit

/-- `count_total_records`: the two `SELECT COUNT(*)` results
`(log_count, alert_count)`. -/
def count_total_records (st : Store) : Nat × Nat :=
  (st.system_log.length, st.alerts_log.length)

/-- `app.get_system_logs(ping_filter)`: `none` embeds Python `None`; a filter
that is the empty string or `"All"` is falsy/excluded by
`if ping_filter and ping_filter != "All"`, so those also take the unfiltered
branch. -/
def get_system_logs (st : Store) (ping_filter : Option String) : List Sample :=
  match ping_filter with
  | some f =>
      if f != "" && f != "All" then
        (st.system_log.filter (fun r => r.ping_status == f)).reverse
      else st.system_log.reverse
  | none => st.system_log.reverse

/-- `app.get_alerts_log()`: newest 20 alert rows. -/
def get_alerts_log (st : Store) : List AlertRow :=
  (st.alerts_log.reverse).take 20

/-- The dictionary returned by `app.get_statistics()`. -/
structure StatsDict where
  log_count : Nat
  alert_count : Nat
  latest_cpu : ℚ
  latest_memory : ℚ
  latest_disk : ℚ
  latest_ping_status : String
  latest_ping_ms : ℚ
deriving DecidableEq

/-- `app.get_statistics()`: row counts plus the newest sample's metrics
(`ORDER BY id DESC LIMIT 1`), with `latest[i] if latest else default`
substituting `0` / `"N/A"` when `fetchone()` returns `None`. -/
def get_statistics (st : Store) : StatsDict :=
  let latest := st.system_log.reverse.head?
  { log_count := st.system_log.length
    alert_count := st.alerts_log.length
    latest_cpu := (latest.map Sample.cpu).getD 0
    latest_memory := (latest.map Sample.memory).getD 0
    latest_disk := (latest.map Sample.disk).getD 0
    latest_ping_status := (latest.map Sample.ping_status).getD "N/A"
    latest_ping_ms := (latest.map Sample.ping_ms).getD 0 }

/-! ### The collector loop (`__main__` in `main.py`)

`get_system_info` reads the environment (psutil, the ping subprocess), so one
run of the loop is embedded as a function of the list of samples those reads
produced, one per tick. -/

/-- One tick of the collection loop: `insert_log(row)` then
`check_alerts(row)` (which appends the triggered alert rows). -/
def loop_tick (row : Sample) (st : Store) : Store :=
  (check_alerts row (insert_log row st)).2

/-- The loop body iterated over the samples of a run, starting from the
freshly initialised database. -/
def collector_run (samples : List Sample) : Store :=
  samples.foldl (fun st row => loop_tick row st) emptyStore

/-! ### The dashboard rendering boundary (`app.main`) -/

/-- The database file as the dashboard finds it: `missing` embeds an absent or
uninitialised `log.db` (`sqlite3.connect` succeeds but every query raises
`OperationalError: no such table: ...`); `present st` embeds an initialised
database in state `st`. -/
inductive DBState where
  | missing
  | present (st : Store)

/-- `get_statistics` at the database boundary: raising is `Except.error` with
the exception's text. -/
def db_get_statistics : DBState → Except String StatsDict
  | DBState.missing => Except.error "no such table: system_log"
  | DBState.present st => Except.ok (get_statistics st)

/-- `get_alerts_log` at the database boundary. -/
def db_get_alerts_log : DBState → Except String (List AlertRow)
  | DBState.missing => Except.error "no such table: alerts_log"
  | DBState.present st => Except.ok (get_alerts_log st)

/-- `get_system_logs` at the database boundary. -/
def db_get_system_logs (ping_filter : Option String) :
    DBState → Except String (List Sample)
  | DBState.missing => Except.error "no such table: system_log"
  | DBState.present st => Except.ok (get_system_logs st ping_filter)

/-- The data a completed render of `app.main` displays: `noData` is the early
return after the "No data available" warning (empty logs table), `full` is the
complete page with charts built from the unfiltered history. -/
inductive Page where
  | noData (stats : StatsDict) (alerts : List AlertRow)
  | full (stats : StatsDict) (alerts : List AlertRow)
      (logs : List Sample) (chart : List Sample)
deriving DecidableEq

/-- The body of the `try:` block of `app.main`, in source order:
`get_statistics()`, `get_alerts_log()`, `get_system_logs(filter)`, the early
return on an empty logs table, then `get_system_logs()` for the charts. -/
def dashboard_body (db : DBState) (ping_filter : Option String) :
    Except String Page := do
  let stats ← db_get_statistics db
  let alerts ← db_get_alerts_log db
  let logs ← db_get_system_logs ping_filter db
  if logs.isEmpty then
    return Page.noData stats alerts
  else
    let chart ← db_get_system_logs none db
    return Page.full stats alerts logs chart

/-- What a render of `app.main` surfaces to the user. -/
inductive RenderOutcome where
  | page (p : Page)
  | degraded (errMsg : String) (infoMsg : String)
deriving DecidableEq

/-- `app.main`: the whole body runs inside `try: ... except Exception as e`,
so a raising read never propagates — it degrades to `st.error`/`st.info`
messages. -/
def dashboard_main (db : DBState) (ping_filter : Option String) : RenderOutcome :=
  match dashboard_body db ping_filter with
  | Except.ok p => RenderOutcome.page p
  | Except.error e =>
      RenderOutcome.degraded ("Error loading data: " ++ e)
        "Make sure 'log.db' exists in the same directory. Run your logger script first."

/-- Every `alerts_log` row's timestamp equals some `system_log` row's
timestamp (the cross-table invariant of §3 of the spec). -/
def alerts_covered (st : Store) : Prop :=
  ∀ a ∈ st.alerts_log, ∃ r ∈ st.system_log, r.timestamp = a.timestamp

/-! ### Helper lemmas -/

theorem parseLine_eq_none_of_no_marker (line : List Char)
    (h1 : containsSub timeEqMarker (lowerL line) = false)
    (h2 : containsSub timeLtMarker (lowerL line) = false) :
    parseLine line = none := by
  unfold parseLine
  simp [h1, h2]

theorem parsePingLines_eq_neg_one (lines : List (List Char))
    (h : ∀ l ∈ lines, parseLine l = none) :
    parsePingLines lines = -1 := by
  induction lines with
  | nil => rfl
  | cons l ls ih =>
      have hl : parseLine l = none := h l (List.mem_cons_self l ls)
      simp only [parsePingLines, hl]
      exact ih fun x hx => h x (List.mem_cons_of_mem l hx)

theorem parsePingLines_first (pre : List (List Char)) (line : List Char)
    (rest : List (List Char)) (v : ℚ)
    (hpre : ∀ l ∈ pre, parseLine l = none) (hline : parseLine line = some v) :
    parsePingLines (pre ++ line :: rest) = v := by
  induction pre with
  | nil => simp [parsePingLines, hline]
  | cons p ps ih =>
      have hp : parseLine p = none := hpre p (List.mem_cons_self p ps)
      simp only [List.cons_append, parsePingLines, hp]
      exact ih fun l hl => hpre l (List.mem_cons_of_mem p hl)

theorem parse_ping_time_of_no_marker (output : List Char)
    (h : hasTimeMarker output = false) :
    parse_ping_time output = -1 := by
  unfold parse_ping_time
  refine parsePingLines_eq_neg_one _ fun l hl => ?_
  have hmem := (List.any_eq_false.mp h) l hl
  simp only [Bool.or_eq_true, not_or, Bool.not_eq_true] at hmem
  exact parseLine_eq_none_of_no_marker l hmem.1 hmem.2

theorem fold_insert_alert_system_log (ts : String) (as : List AlertRec) (st : Store) :
    (as.foldl (fun s a => insert_alert ts a s) st).system_log = st.system_log := by
  induction as generalizing st with
  | nil => rfl
  | cons a as ih => simpa [insert_alert] using ih _

theorem fold_insert_alert_alerts_log (ts : String) (as : List AlertRec) (st : Store) :
    (as.foldl (fun s a => insert_alert ts a s) st).alerts_log =
      st.alerts_log ++
        as.map (fun a => (⟨ts, a.alert_type, a.value, a.threshold, a.message⟩ : AlertRow)) := by
  induction as generalizing st with
  | nil => simp
  | cons a as ih =>
      rw [List.foldl_cons, ih (insert_alert ts a st)]
      simp [insert_alert]

theorem loop_tick_system_log (row : Sample) (st : Store) :
    (loop_tick row st).system_log = st.system_log ++ [row] := by
  simp [loop_tick, check_alerts, fold_insert_alert_system_log, insert_log]

theorem loop_tick_alerts_log (row : Sample) (st : Store) :
    (loop_tick row st).alerts_log =
      st.alerts_log ++
        (check_alerts_list row).map
          (fun a => (⟨row.timestamp, a.alert_type, a.value, a.threshold, a.message⟩ :
            AlertRow)) := by
  simp [loop_tick, check_alerts, fold_insert_alert_alerts_log, insert_log]

theorem loop_tick_covered (row : Sample) (st : Store) (h : alerts_covered st) :
    alerts_covered (loop_tick row st) := by
  intro a ha
  rw [loop_tick_alerts_log] at ha
  rcases List.mem_append.mp ha with hold | hnew
  · obtain ⟨r, hr, hrt⟩ := h a hold
    exact ⟨r, by rw [loop_tick_system_log]; exact List.mem_append_left _ hr, hrt⟩
  · obtain ⟨rec, _, hrec⟩ := List.mem_map.mp hnew
    refine ⟨row, by rw [loop_tick_system_log]; simp, ?_⟩
    rw [← hrec]

theorem foldl_loop_tick_covered (samples : List Sample) (st : Store)
    (h : alerts_covered st) :
    alerts_covered (samples.foldl (fun acc row => loop_tick row acc) st) := by
  induction samples generalizing st with
  | nil => exact h
  | cons s ss ih => exact ih _ (loop_tick_covered s st h)

theorem foldl_loop_tick_system_log (samples : List Sample) (st : Store) :
    (samples.foldl (fun acc row => loop_tick row acc) st).system_log =
      st.system_log ++ samples := by
  induction samples generalizing st with
  | nil => simp
  | cons s ss ih => simp [ih, loop_tick_system_log]

theorem collector_run_system_log (samples : List Sample) :
    (collector_run samples).system_log = samples := by
  simpa [collector_run, emptyStore] using foldl_loop_tick_system_log samples emptyStore

theorem foldl_insert_log_length (samples : List Sample) (st : Store) :
    (samples.foldl (fun acc s => insert_log s acc) st).system_log.length =
      st.system_log.length + samples.length := by
  induction samples generalizing st with
  | nil => simp
  | cons s ss ih =>
      rw [List.foldl_cons, ih (insert_log s st)]
      simp [insert_log]
      omega

/-! ### The claims -/

/-- C1 as frozen is false on the code at two explicit inputs.  First, when
`ping` exits 0 but its output `"pong"` contains no `time=`/`time<` substring,
`parse_ping_time` returns `-1` and `ping_host` returns `("UP", -1)`, not the
claimed `("DOWN", -1)`.  Second, the output `"time=5 ms x time=23.4 ms"`
contains the substring `"time=23.4 ms"` yet yields `("UP", 5)`, not the
claimed `23.4`: the loop takes the token after the first `time=` marker, so an
earlier parseable marker preempts a later one. -/
theorem C1_ping_counterexamples :
    (hasTimeMarker "pong".data = false ∧
      ping_host (Except.ok "pong".data) ≠ ("DOWN", -1)) ∧
    (containsSub "time=23.4 ms".data "time=5 ms x time=23.4 ms".data = true ∧
      ping_host (Except.ok "time=5 ms x time=23.4 ms".data) ≠ ("UP", 23.4) ∧
      ping_host (Except.ok "time=5 ms x time=23.4 ms".data) = ("UP", 5)) := by
  have h5 : ping_host (Except.ok "time=5 ms x time=23.4 ms".data) = ("UP", 5) := by
    with_unfolding_all rfl
  have hne : (5 : ℚ) ≠ 23.4 := by norm_num
  exact ⟨⟨by decide, by decide⟩,
    ⟨by decide, fun hcontra => hne (congrArg Prod.snd (h5.symm.trans hcontra)), h5⟩⟩

/-- C1 (amended): for a successful subprocess the status is always `UP` and
`ping_ms` comes from the first line whose `time=`/`time<` marker yields a
parseable number (first conjunct, fully general) — in particular the
single-reply outputs containing `time=23.4 ms` / `time<1ms` yield
`("UP", 23.4)` / `("UP", 1)`; a subprocess that exits non-zero or raises
yields `("DOWN", -1)`; and when the subprocess succeeds but no `time=`/`time<`
substring is found, or no marker line is parseable (`parseLine` yields nothing
for every line, e.g. `"time=abc ms"`), the result is `("UP", -1)` — the
sentinel latency without the `DOWN` status. -/
theorem C1_ping_amended :
    (∀ (output : List Char) (pre : List (List Char)) (line : List Char)
        (rest : List (List Char)) (v : ℚ),
      splitlines output = pre ++ line :: rest →
      (∀ l ∈ pre, parseLine l = none) →
      parseLine line = some v →
      ping_host (Except.ok output) = ("UP", v)) ∧
    ping_host (Except.ok "64 bytes from 8.8.8.8: icmp_seq=1 ttl=117 time=23.4 ms".data)
        = ("UP", 23.4) ∧
    ping_host (Except.ok "Reply from 8.8.8.8: bytes=32 time<1ms TTL=117".data)
        = ("UP", 1) ∧
    (∀ e : Unit, ping_host (Except.error e) = ("DOWN", -1)) ∧
    (∀ output : List Char, hasTimeMarker output = false →
      ping_host (Except.ok output) = ("UP", -1)) ∧
    (∀ output : List Char, (∀ l ∈ splitlines output, parseLine l = none) →
      ping_host (Except.ok output) = ("UP", -1)) := by
  refine ⟨?_, by with_unfolding_all rfl, by with_unfolding_all rfl, fun e => rfl, ?_, ?_⟩
  · intro output pre line rest v hsplit hpre hline
    show ("UP", parse_ping_time output) = ("UP", v)
    rw [parse_ping_time, hsplit, parsePingLines_first pre line rest v hpre hline]
  · intro output h
    simp [ping_host, parse_ping_time_of_no_marker output h]
  · intro output h
    show ("UP", parse_ping_time output) = ("UP", -1)
    rw [parse_ping_time, parsePingLines_eq_neg_one (splitlines output) h]

/-- Witness for the quantified unparseable clause of `C1_ping_amended`: a
marker is present but its token `abc` is not a float, and the result still
has status `UP`. -/
theorem C1_ping_amended_witness :
    ping_host (Except.ok "round trip time=abc ms".data) = ("UP", -1) :=
  C1_ping_amended.2.2.2.2.2 "round trip time=abc ms".data (by decide)

/-- C2: a sample with every metric at or below its threshold triggers no
alert — `check_alerts` compares with strict `>`. -/
theorem C2_no_alerts (s : Sample) (h1 : s.cpu ≤ CPU_THRESHOLD)
    (h2 : s.memory ≤ MEMORY_THRESHOLD) (h3 : s.disk ≤ DISK_THRESHOLD) :
    check_alerts_list s = [] := by
  unfold check_alerts_list
  rw [if_neg (not_lt.mpr h1), if_neg (not_lt.mpr h2), if_neg (not_lt.mpr h3)]
  rfl

/-- Witness for `C2_no_alerts` at the boundary sample (80, 85, 90). -/
theorem C2_no_alerts_witness :
    check_alerts_list ⟨"t0", 80, 85, 90, "UP", 12⟩ = [] :=
  C2_no_alerts ⟨"t0", 80, 85, 90, "UP", 12⟩ (by decide) (by decide) (by decide)

/-- C6: appending a sample and reading the newest stored row back
(`ORDER BY id DESC LIMIT 1`) returns exactly that sample, all six persisted
fields equal. -/
theorem C6_round_trip (st : Store) (s : Sample) :
    show_last_entries_rows 1 (insert_log s st) = [s] := by
  simp [show_last_entries_rows, insert_log]

/-- C7: starting from the empty store, after appending N samples the
`system_log` count is exactly N. -/
theorem C7_count_after_appends (samples : List Sample) :
    (count_total_records (samples.foldl (fun st s => insert_log s st) emptyStore)).1 =
      samples.length := by
  simp [count_total_records, foldl_insert_log_length, emptyStore]

/-- C3: when exactly one metric strictly exceeds its threshold,
`check_alerts` triggers exactly one alert, of the matching type, carrying the
offending metric's value and the fixed threshold constant. -/
theorem C3_single_alert (s : Sample) (h : exceedCount s = 1) :
    ∃ a : AlertRec, check_alerts_list s = [a] ∧
      ((s.cpu > CPU_THRESHOLD ∧ a.alert_type = "CPU" ∧ a.value = s.cpu ∧
          a.threshold = CPU_THRESHOLD) ∨
       (s.memory > MEMORY_THRESHOLD ∧ a.alert_type = "MEMORY" ∧ a.value = s.memory ∧
          a.threshold = MEMORY_THRESHOLD) ∨
       (s.disk > DISK_THRESHOLD ∧ a.alert_type = "DISK" ∧ a.value = s.disk ∧
          a.threshold = DISK_THRESHOLD)) := by
  by_cases hc : s.cpu > CPU_THRESHOLD <;>
    by_cases hm : s.memory > MEMORY_THRESHOLD <;>
      by_cases hd : s.disk > DISK_THRESHOLD <;>
        simp [exceedCount, hc, hm, hd] at h <;>
          first
            | exact ⟨⟨"CPU", s.cpu, CPU_THRESHOLD, AlertMsg.highCpu s.cpu⟩,
                by simp [check_alerts_list, hc, hm, hd], Or.inl ⟨hc, rfl, rfl, rfl⟩⟩
            | exact ⟨⟨"MEMORY", s.memory, MEMORY_THRESHOLD, AlertMsg.highMemory s.memory⟩,
                by simp [check_alerts_list, hc, hm, hd],
                Or.inr (Or.inl ⟨hm, rfl, rfl, rfl⟩)⟩
            | exact ⟨⟨"DISK", s.disk, DISK_THRESHOLD, AlertMsg.lowDisk s.disk⟩,
                by simp [check_alerts_list, hc, hm, hd],
                Or.inr (Or.inr ⟨hd, rfl, rfl, rfl⟩)⟩

/-- Witness for `C3_single_alert`: only the CPU metric is above threshold. -/
theorem C3_single_alert_witness :
    ∃ a : AlertRec,
      check_alerts_list ⟨"t1", 90, 50, 50, "UP", 10⟩ = [a] ∧
      (((⟨"t1", 90, 50, 50, "UP", 10⟩ : Sample).cpu > CPU_THRESHOLD ∧
          a.alert_type = "CPU" ∧
          a.value = (⟨"t1", 90, 50, 50, "UP", 10⟩ : Sample).cpu ∧
          a.threshold = CPU_THRESHOLD) ∨
       ((⟨"t1", 90, 50, 50, "UP", 10⟩ : Sample).memory > MEMORY_THRESHOLD ∧
          a.alert_type = "MEMORY" ∧
          a.value = (⟨"t1", 90, 50, 50, "UP", 10⟩ : Sample).memory ∧
          a.threshold = MEMORY_THRESHOLD) ∨
       ((⟨"t1", 90, 50, 50, "UP", 10⟩ : Sample).disk > DISK_THRESHOLD ∧
          a.alert_type = "DISK" ∧
          a.value = (⟨"t1", 90, 50, 50, "UP", 10⟩ : Sample).disk ∧
          a.threshold = DISK_THRESHOLD)) :=
  C3_single_alert ⟨"t1", 90, 50, 50, "UP", 10⟩ (by decide)

/-- C4: whenever two or more metrics exceed their thresholds, the triggered
alerts come in the fixed check order CPU, MEMORY, DISK (strictly increasing
`typeRank`), whatever the metric magnitudes. -/
theorem C4_alert_order (s : Sample) (h : 2 ≤ exceedCount s) :
    ((check_alerts_list s).map (fun a => a.alert_type)).Pairwise
      (fun x y => typeRank x < typeRank y) := by
  by_cases hc : s.cpu > CPU_THRESHOLD <;>
    by_cases hm : s.memory > MEMORY_THRESHOLD <;>
      by_cases hd : s.disk > DISK_THRESHOLD <;>
        simp [exceedCount, hc, hm, hd] at h <;>
          simp [check_alerts_list, hc, hm, hd] <;> decide

/-- Witness for `C4_alert_order`: memory exceeds by more than CPU does, yet
CPU is still listed first. -/
theorem C4_alert_order_witness :
    ((check_alerts_list ⟨"t2", 85, 99, 50, "UP", 10⟩).map
        (fun a => a.alert_type)).Pairwise
      (fun x y => typeRank x < typeRank y) :=
  C4_alert_order ⟨"t2", 85, 99, 50, "UP", 10⟩ (by decide)

/-- C5: in every store state reachable by the collection loop (the sample row
written first, its derived alerts after it, reusing its timestamp), every
`alerts_log` row's timestamp equals the timestamp of some `system_log`
row. -/
theorem C5_alerts_timestamp_invariant (samples : List Sample) :
    alerts_covered (collector_run samples) := by
  have hempty : alerts_covered emptyStore := by
    intro a ha
    simp [emptyStore] at ha
  simpa [collector_run] using foldl_loop_tick_covered samples emptyStore hempty

/-- C8: the `ping_status = "DOWN"` filter of `get_system_logs` returns only
`DOWN` rows, returns nothing when no such row exists, and the unfiltered
query returns exactly the rows of `system_log`. -/
theorem C8_ping_filter (st : Store) :
    (∀ r ∈ get_system_logs st (some "DOWN"), r.ping_status = "DOWN") ∧
    ((∀ r ∈ st.system_log, r.ping_status ≠ "DOWN") →
      get_system_logs st (some "DOWN") = []) ∧
    (∀ r : Sample, r ∈ get_system_logs st none ↔ r ∈ st.system_log) := by
  have hq : get_system_logs st (some "DOWN") =
      (st.system_log.filter (fun x => x.ping_status == "DOWN")).reverse := rfl
  refine ⟨?_, ?_, ?_⟩
  · intro r hr
    rw [hq, List.mem_reverse, List.mem_filter] at hr
    simpa using hr.2
  · intro hnone
    rw [hq, List.reverse_eq_nil_iff, List.filter_eq_nil_iff]
    intro a ha
    simpa using hnone a ha
  · intro r
    simp [get_system_logs]

/-- Witness for `C8_ping_filter`: in a two-row store the filtered query's one
result row indeed has status DOWN. -/
theorem C8_ping_filter_witness :
    (⟨"t4", 10, 10, 10, "DOWN", -1⟩ : Sample).ping_status = "DOWN" :=
  (C8_ping_filter
      ⟨[⟨"t3", 10, 10, 10, "UP", 5⟩, ⟨"t4", 10, 10, 10, "DOWN", -1⟩], []⟩).1
    ⟨"t4", 10, 10, 10, "DOWN", -1⟩ (by decide)

/-- C9: the dashboard's rendering entry point never propagates a read
failure: with the store file missing every query raises and `main` degrades
to the error banner plus the "run your logger script first" message, and with
an initialised-but-empty store it renders the no-data page normally. -/
theorem C9_dashboard_never_crashes (ping_filter : Option String) :
    dashboard_main DBState.missing ping_filter =
      RenderOutcome.degraded "Error loading data: no such table: system_log"
        "Make sure 'log.db' exists in the same directory. Run your logger script first." ∧
    dashboard_main (DBState.present emptyStore) ping_filter =
      RenderOutcome.page
        (Page.noData (get_statistics emptyStore) (get_alerts_log emptyStore)) := by
  constructor
  · rfl
  · cases ping_filter with
    | none => rfl
    | some f =>
        have hlogs : get_system_logs emptyStore (some f) = [] := by
          simp [get_system_logs, emptyStore]
        simp only [dashboard_main, dashboard_body, db_get_statistics, db_get_alerts_log,
          db_get_system_logs, hlogs]
        rfl

/-- C10: on a database whose `system_log` the collector left empty, the
statistics query reports zero counts and substitutes the defaults `0` and
`"N/A"` for the missing latest sample instead of failing. -/
theorem C10_empty_table_defaults (samples : List Sample)
    (h : (collector_run samples).system_log = []) :
    get_statistics (collector_run samples) = ⟨0, 0, 0, 0, 0, "N/A", 0⟩ := by
  have hs : samples = [] := (collector_run_system_log samples).symm.trans h
  subst hs
  rfl

/-- Witness for `C10_empty_table_defaults`: the run with no ticks. -/
theorem C10_empty_table_defaults_witness :
    get_statistics (collector_run []) = ⟨0, 0, 0, 0, 0, "N/A", 0⟩ :=
  C10_empty_table_defaults [] rfl
